import Mathlib

/-!
# Verification of the BNI Anchor check-in offline submission pipeline

Shallow embedding of the offline-resilient check-in core of the
`bni-anchor-checkin` PWA:

* `src/hooks/useOfflineQueue.ts` — `loadQueue`, `persistQueue`,
  `createPendingScan`, `enqueue`, `flushQueue`;
* `src/api.ts` — `handleResponse`, `recordAttendance`;
* `src/components/ScanPanel.tsx` — `submitScan`, `handleManualSubmit`;
* `src/qr-format.ts` — `generateMemberPayload`, `generateGuestPayload`.

Browser capabilities are modelled as explicit parameters: `localStorage`
as the persisted queue value threaded through the functions,
`navigator.onLine` as a boolean, `fetch` as a function from the payload
text to a transport outcome, `crypto.randomUUID` as an id source, and
`new Date().toISOString()` as an ISO-timestamp argument.  Side effects
(storage writes, delivery attempts) are returned explicitly so that
frame conditions ("no write happened") are statable.
-/

namespace BniAnchor

/-- The whitespace set recognised by JavaScript `String.prototype.trim`:
tab through carriage return, space, NBSP, and the Unicode space
separators, line/paragraph separators and BOM. -/
def isJsSpace (c : Char) : Bool :=
  (9 ≤ c.toNat && c.toNat ≤ 13) || c.toNat = 32 || c.toNat = 160 ||
  c.toNat = 0x1680 || (0x2000 ≤ c.toNat && c.toNat ≤ 0x200A) ||
  c.toNat = 0x2028 || c.toNat = 0x2029 || c.toNat = 0x202F ||
  c.toNat = 0x205F || c.toNat = 0x3000 || c.toNat = 0xFEFF

/-- JavaScript `String.prototype.trim`: strip `isJsSpace` characters from
both ends. -/
def jsTrim (s : String) : String :=
  String.mk (((s.data.dropWhile isJsSpace).reverse.dropWhile isJsSpace).reverse)

/-- `PendingScan` from `useOfflineQueue.ts`: one queued submission. -/
structure PendingScan where
  id : String
  qrPayload : String
  createdAt : String
deriving Repr, DecidableEq

/-- A JSON value, the result type of the platform primitive `JSON.parse`
(which `loadQueue` applies to the stored text).  `JSON.parse` itself is an
external capability and is passed to `loadQueue` as a function; only the
shape of its result (array or not) matters to the queue. -/
inductive Json where
  | jnull : Json
  | jbool : Bool → Json
  | jnum : Int → Json
  | jstr : String → Json
  | jarr : List Json → Json
  | jobj : List (String × Json) → Json

/-- `loadQueue` from `useOfflineQueue.ts`.  `window` models the
`typeof window === "undefined"` SSR guard; `stored` is
`localStorage.getItem(QUEUE_KEY)` (`none` = JS `null`; JS `!stored` is
also true for the empty string); `parse` models `JSON.parse`, with
`none` standing for a thrown parse error (the `catch` branch removes the
stored key and falls through to `return []`).  The source returns the
parsed array uncast, so the element type here is `Json`. -/
def loadQueue (window : Bool) (stored : Option String)
    (parse : String → Option Json) : List Json :=
  if !window then []
  else
    match stored with
    | none => []
    | some s =>
      if s = "" then []
      else
        match parse s with
        | none => []
        | some (Json.jarr xs) => xs
        | some _ => []

/-- `createPendingScan` from `useOfflineQueue.ts`.  The id source
(`crypto.randomUUID()` with a `Math.random` fallback) and the clock
(`new Date().toISOString()`) are ambient capabilities, passed as the
values they produce at this call. -/
def createPendingScan (idv : String) (nowIso : String)
    (qrPayload : String) : PendingScan :=
  { id := idv, qrPayload := qrPayload, createdAt := nowIso }

/-- `enqueue` from `useOfflineQueue.ts`:
`const next = [...loadQueue(), createPendingScan(qrPayload)]` followed by
a single `persistQueue(next)`.  `stored` is the freshly re-read persisted
queue (the `loadQueue()` call at mutation time), already decoded to
well-formed entries. -/
def enqueue (stored : List PendingScan) (idv nowIso qrPayload : String) :
    List PendingScan :=
  stored ++ [createPendingScan idv nowIso qrPayload]

/-- Outcome of one `fetch` call in `api.ts`: `Except.error` is a
transport-level throw (network unreachable, CORS, abort); `Except.ok
(ok, body)` is an HTTP response with `response.ok` flag and body text. -/
def FetchOutcome : Type := Except String (Bool × String)

/-- `handleResponse` from `api.ts`: a non-`ok` response throws an `Error`
carrying the body text, or the fixed message when the body is empty
(JS `text || "Attendance service returned an unexpected response."`);
an `ok` response resolves with the body. -/
def handleResponse (resp : Bool × String) : Except String String :=
  if !resp.1 then
    Except.error
      (if resp.2 = "" then "Attendance service returned an unexpected response."
       else resp.2)
  else Except.ok resp.2

/-- `recordAttendance` from `api.ts`: POST the payload and run the
response through `handleResponse`; a transport throw propagates. -/
def recordAttendance (fetch : String → FetchOutcome) (qrPayload : String) :
    Except String String :=
  match fetch qrPayload with
  | Except.error e => Except.error e
  | Except.ok resp => handleResponse resp

/-- `true` when the delivery attempt for this payload succeeds (the
`await recordAttendance(...)` in `flushQueue` does not throw). -/
def attemptSucceeds (fetch : String → FetchOutcome) (qrPayload : String) :
    Bool :=
  match recordAttendance fetch qrPayload with
  | Except.ok _ => true
  | Except.error _ => false

/-- The observable effects of one `flushQueue` call: the returned
`{ flushed }` count, the payloads whose delivery was attempted in
attempt order, every `persistQueue` write performed, and the persisted
queue after the call. -/
structure FlushResult where
  flushed : Nat
  attempts : List String
  writes : List (List PendingScan)
  queueAfter : List PendingScan
deriving Repr, DecidableEq

/-- The `for (const item of stored)` loop of `flushQueue`: accumulates
the retained entries (`remaining`), the success count (`flushed`) and
the attempted payloads, in iteration order. -/
def flushLoop (fetch : String → FetchOutcome) :
    List PendingScan → List PendingScan → Nat → List String →
    (List PendingScan × Nat × List String)
  | [], remaining, flushed, attempted => (remaining, flushed, attempted)
  | item :: rest, remaining, flushed, attempted =>
    if attemptSucceeds fetch item.qrPayload then
      flushLoop fetch rest remaining (flushed + 1)
        (attempted ++ [item.qrPayload])
    else
      flushLoop fetch rest (remaining ++ [item]) flushed
        (attempted ++ [item.qrPayload])

/-- `flushQueue` from `useOfflineQueue.ts`.  `online` models
`typeof window !== "undefined" && navigator.onLine`; `stored` is the
queue loaded from storage at the start of the pass.  Offline or empty:
return `{ flushed: 0 }` with no attempt and no write.  Otherwise run the
loop and persist the retained subset in one write at the end. -/
def flushQueue (online : Bool) (stored : List PendingScan)
    (fetch : String → FetchOutcome) : FlushResult :=
  if !online then
    { flushed := 0, attempts := [], writes := [], queueAfter := stored }
  else if stored.isEmpty then
    { flushed := 0, attempts := [], writes := [], queueAfter := stored }
  else
    let r := flushLoop fetch stored [] 0 []
    { flushed := r.2.1, attempts := r.2.2, writes := [r.1], queueAfter := r.1 }

/-- The observable outcome of one `submitScan` call in `ScanPanel.tsx`:
whether the immediate delivery succeeded, the `flushed` count of the
post-success drain (0 when no drain ran), every storage write performed
by the call (through `enqueue` or the drain), and the persisted queue
afterwards.  The whole body sits in a `try`/`catch` whose `catch` arm
enqueues the payload, so the function is total: no error escapes. -/
structure SubmitResult where
  delivered : Bool
  flushedCount : Nat
  queueWrites : List (List PendingScan)
  queueAfter : List PendingScan
deriving Repr, DecidableEq

/-- `submitScan` from `ScanPanel.tsx`.  The `try` block throws
`Error("offline")` when `navigator.onLine` is false, otherwise awaits
`recordAttendance(payload)`; on success, if the mirrored `pendingCount`
is positive it awaits `flushQueue()`.  Any throw lands in the `catch`
arm, which calls `enqueue(payload)` (re-reading the persisted queue,
here `stored`, which no other step of this call has changed) with a
fresh id `idv` and timestamp `nowIso`. -/
def submitScan (online : Bool) (fetch : String → FetchOutcome)
    (payload : String) (stored : List PendingScan) (pendingCount : Nat)
    (idv nowIso : String) : SubmitResult :=
  let attempt : Except String String :=
    if !online then Except.error "offline"
    else recordAttendance fetch payload
  match attempt with
  | Except.ok _ =>
    if pendingCount > 0 then
      let r := flushQueue online stored fetch
      { delivered := true, flushedCount := r.flushed,
        queueWrites := r.writes, queueAfter := r.queueAfter }
    else
      { delivered := true, flushedCount := 0,
        queueWrites := [], queueAfter := stored }
  | Except.error _ =>
    let next := enqueue stored idv nowIso payload
    { delivered := false, flushedCount := 0,
      queueWrites := [next], queueAfter := next }

/-- `handleManualSubmit` from `ScanPanel.tsx`: returns the payload text
handed to `submitScan`, or `none` when no submission happens
(`if (!manualValue.trim()) return; await submitScan(manualValue.trim())`). -/
def handleManualSubmit (manualValue : String) : Option String :=
  if jsTrim manualValue = "" then none
  else some (jsTrim manualValue)

/-- One mutation of the persisted queue: an `enqueue` of a payload text,
or a drain pass with a given per-payload transport behaviour. -/
inductive QueueOp where
  | enq : String → QueueOp
  | drain : (String → FetchOutcome) → QueueOp

/-- Run one queue operation.  The state is the number of ids drawn so
far from the id source `g` paired with the persisted queue; `clock k`
is the timestamp observed by the `k`-th `createPendingScan` call. -/
def applyOp (g : Nat → String) (clock : Nat → String) :
    Nat × List PendingScan → QueueOp → Nat × List PendingScan
  | (k, q), QueueOp.enq p => (k + 1, enqueue q (g k) (clock k) p)
  | (k, q), QueueOp.drain fetch => (k, (flushQueue true q fetch).queueAfter)

/-- Run a whole history of queue operations from the empty queue. -/
def runOps (g : Nat → String) (clock : Nat → String) (ops : List QueueOp) :
    Nat × List PendingScan :=
  ops.foldl (applyOp g clock) (0, [])

/-- Progress of one in-flight `flushQueue` invocation, cut at its `await`
suspension points: not yet started; started (snapshot loaded) with the
entries still to attempt, the entries retained so far and the running
success count; or returned with its `flushed` count. -/
inductive TaskState where
  | idle : TaskState
  | running : List PendingScan → List PendingScan → Nat → TaskState
  | finished : Nat → TaskState
deriving Repr, DecidableEq

/-- Shared state for two interleaved `flushQueue` invocations: the
persisted queue, the log of entry ids whose delivery has been attempted
(in attempt order, across both invocations), and the two task states. -/
structure DrainSys where
  persisted : List PendingScan
  attemptLog : List String
  taskA : TaskState
  taskB : TaskState
deriving Repr, DecidableEq

/-- One scheduler step of a single `flushQueue` task (online case).
`idle`: the synchronous prefix — load the persisted queue and return
early if it is empty.  `running` with items left: one loop iteration,
i.e. one awaited `recordAttendance` for the next snapshot item.
`running` with no items left: the final `persistQueue(remaining)` write
and return.  `finished`: no-op. -/
def taskStep (fetch : String → FetchOutcome) (persisted : List PendingScan)
    (log : List String) :
    TaskState → TaskState × List PendingScan × List String
  | TaskState.idle =>
    if persisted.isEmpty then (TaskState.finished 0, persisted, log)
    else (TaskState.running persisted [] 0, persisted, log)
  | TaskState.running [] remaining flushed =>
    (TaskState.finished flushed, remaining, log)
  | TaskState.running (item :: rest) remaining flushed =>
    if attemptSucceeds fetch item.qrPayload then
      (TaskState.running rest remaining (flushed + 1), persisted,
       log ++ [item.id])
    else
      (TaskState.running rest (remaining ++ [item]) flushed, persisted,
       log ++ [item.id])
  | TaskState.finished n => (TaskState.finished n, persisted, log)

/-- Advance the chosen task (`false` = first, `true` = second) by one
step. -/
def schedStep (fetch : String → FetchOutcome) (sys : DrainSys)
    (which : Bool) : DrainSys :=
  if which then
    let r := taskStep fetch sys.persisted sys.attemptLog sys.taskB
    { sys with taskB := r.1, persisted := r.2.1, attemptLog := r.2.2 }
  else
    let r := taskStep fetch sys.persisted sys.attemptLog sys.taskA
    { sys with taskA := r.1, persisted := r.2.1, attemptLog := r.2.2 }

/-- Run a schedule (a list of task choices) over the two-task system. -/
def runSched (fetch : String → FetchOutcome) (sched : List Bool)
    (sys : DrainSys) : DrainSys :=
  sched.foldl (schedStep fetch) sys

/-- The character `U+007B` (opening curly bracket). -/
def obraceChar : Char := Char.ofNat 123

/-- The character `U+007D` (closing curly bracket). -/
def cbraceChar : Char := Char.ofNat 125

/-- Lower-case hexadecimal digit for a value below 16, as emitted by
`JSON.stringify`'s `\u00xx` escapes. -/
def hexDigitChar (n : Nat) : Char :=
  if n < 10 then Char.ofNat (48 + n) else Char.ofNat (87 + n)

/-- How `JSON.stringify` renders one character inside a string literal:
`"` and `\` get two-character escapes, the named control characters get
`\b`, `\t`, `\n`, `\f`, `\r`, every other control character below
`U+0020` gets `\u00xx` (lower-case hex), and everything else is emitted
verbatim. -/
def escChar (c : Char) : List Char :=
  if c = Char.ofNat 34 then [Char.ofNat 92, Char.ofNat 34]
  else if c = Char.ofNat 92 then [Char.ofNat 92, Char.ofNat 92]
  else if c.toNat = 8 then [Char.ofNat 92, Char.ofNat 98]
  else if c.toNat = 9 then [Char.ofNat 92, Char.ofNat 116]
  else if c.toNat = 10 then [Char.ofNat 92, Char.ofNat 110]
  else if c.toNat = 12 then [Char.ofNat 92, Char.ofNat 102]
  else if c.toNat = 13 then [Char.ofNat 92, Char.ofNat 114]
  else if c.toNat < 32 then
    [Char.ofNat 92, Char.ofNat 117, Char.ofNat 48, Char.ofNat 48,
     hexDigitChar (c.toNat / 16), hexDigitChar (c.toNat % 16)]
  else [c]

/-- A JSON string literal: quote, escaped characters, quote. -/
def quoteStr (s : List Char) : List Char :=
  Char.ofNat 34 :: (s.map escChar).flatten ++ [Char.ofNat 34]

/-- One `"key":"value"` member of a serialized JSON object. -/
def stringifyField (kv : List Char × List Char) : List Char :=
  quoteStr kv.1 ++ Char.ofNat 58 :: quoteStr kv.2

/-- Comma-separated members of a serialized JSON object. -/
def fieldsGlue : List (List Char × List Char) → List Char
  | [] => []
  | [kv] => stringifyField kv
  | kv :: rest => stringifyField kv ++ Char.ofNat 44 :: fieldsGlue rest

/-- `JSON.stringify` on an object all of whose values are strings, with
members in insertion order — the exact wire form produced by
`generateMemberPayload` / `generateGuestPayload`. -/
def stringifyFlatObj (fields : List (List Char × List Char)) : List Char :=
  obraceChar :: fieldsGlue fields ++ [cbraceChar]

/-- Numeric value of a hexadecimal digit (`JSON.parse` accepts both
cases). -/
def hexVal (c : Char) : Option Nat :=
  if 48 ≤ c.toNat ∧ c.toNat ≤ 57 then some (c.toNat - 48)
  else if 97 ≤ c.toNat ∧ c.toNat ≤ 102 then some (c.toNat - 87)
  else if 65 ≤ c.toNat ∧ c.toNat ≤ 70 then some (c.toNat - 55)
  else none

/-- The single-character escapes of the JSON grammar. -/
def simpleEscape (e : Char) : Option Char :=
  if e = Char.ofNat 34 then some (Char.ofNat 34)
  else if e = Char.ofNat 92 then some (Char.ofNat 92)
  else if e = Char.ofNat 47 then some (Char.ofNat 47)
  else if e = Char.ofNat 98 then some (Char.ofNat 8)
  else if e = Char.ofNat 102 then some (Char.ofNat 12)
  else if e = Char.ofNat 110 then some (Char.ofNat 10)
  else if e = Char.ofNat 114 then some (Char.ofNat 13)
  else if e = Char.ofNat 116 then some (Char.ofNat 9)
  else none

/-- Parse the body of a JSON string literal (the opening quote already
consumed) up to and including the closing quote, returning the decoded
characters and the unconsumed input.  Mirrors the JSON string grammar
`JSON.parse` implements: escapes as in `simpleEscape`/`\uXXXX`, raw
control characters rejected. -/
def parseStringBody : List Char → Option (List Char × List Char)
  | [] => none
  | c :: rest =>
    if c = Char.ofNat 34 then some ([], rest)
    else if c = Char.ofNat 92 then
      match rest with
      | [] => none
      | e :: rest2 =>
        if e = Char.ofNat 117 then
          match rest2 with
          | a :: b :: c3 :: d :: rest3 =>
            match hexVal a, hexVal b, hexVal c3, hexVal d with
            | some x, some y, some z, some w =>
              match parseStringBody rest3 with
              | some (s, r) =>
                some (Char.ofNat (((x * 16 + y) * 16 + z) * 16 + w) :: s, r)
              | none => none
            | _, _, _, _ => none
          | _ => none
        else
          match simpleEscape e with
          | some ec =>
            match parseStringBody rest2 with
            | some (s, r) => some (ec :: s, r)
            | none => none
          | none => none
    else if c.toNat < 32 then none
    else
      match parseStringBody rest with
      | some (s, r) => some (c :: s, r)
      | none => none

/-- Parse a whole JSON string literal, opening quote included. -/
def parseJStr : List Char → Option (List Char × List Char)
  | [] => none
  | c :: rest => if c = Char.ofNat 34 then parseStringBody rest else none

/-- Parse the members of a JSON object with string values (compact form,
as emitted by `JSON.stringify`), the opening brace already consumed,
up to and including the closing brace.  `fuel` bounds the number of
members; callers pass the input length, which always suffices. -/
def parseFieldsFuel : Nat → List Char →
    Option (List (List Char × List Char) × List Char)
  | 0, _ => none
  | fuel + 1, l =>
    match parseJStr l with
    | none => none
    | some (k, r1) =>
      match r1 with
      | [] => none
      | c :: r2 =>
        if c = Char.ofNat 58 then
          match parseJStr r2 with
          | none => none
          | some (v, r3) =>
            match r3 with
            | [] => none
            | d :: r4 =>
              if d = Char.ofNat 44 then
                match parseFieldsFuel fuel r4 with
                | some (fs, r) => some ((k, v) :: fs, r)
                | none => none
              else if d = cbraceChar then some ([(k, v)], r4)
              else none
        else none

/-- Parse a complete compact JSON object with string values, mirroring
`JSON.parse` on the wire texts `stringifyFlatObj` emits; any trailing
input rejects. -/
def parseFlatObj (l : List Char) : Option (List (List Char × List Char)) :=
  match l with
  | [] => none
  | c :: rest =>
    if c = obraceChar then
      match rest with
      | [] => none
      | d :: rest2 =>
        if d = cbraceChar then if rest2 = [] then some [] else none
        else
          match parseFieldsFuel rest.length rest with
          | some (fs, r) => if r = [] then some fs else none
          | none => none
    else none

/-- `JSON.parse` applied to a payload text, at the `String` level. -/
def parsePayload (s : String) : Option (List (List Char × List Char)) :=
  parseFlatObj s.data

/-- The 24-character `YYYY-MM-DDTHH:MM:SS.mmmZ` shape produced by
JavaScript `Date.prototype.toISOString`. -/
def isIsoInstant (s : String) : Bool :=
  match s.data with
  | [y1, y2, y3, y4, h1, m1, m2, h2, d1, d2, t, hh1, hh2, c1, mi1, mi2,
     c2, s1, s2, dot, f1, f2, f3, z] =>
    y1.isDigit && y2.isDigit && y3.isDigit && y4.isDigit &&
    h1 = Char.ofNat 45 && m1.isDigit && m2.isDigit && h2 = Char.ofNat 45 &&
    d1.isDigit && d2.isDigit && t = Char.ofNat 84 &&
    hh1.isDigit && hh2.isDigit && c1 = Char.ofNat 58 &&
    mi1.isDigit && mi2.isDigit && c2 = Char.ofNat 58 &&
    s1.isDigit && s2.isDigit && dot = Char.ofNat 46 &&
    f1.isDigit && f2.isDigit && f3.isDigit && z = Char.ofNat 90
  | _ => false

/-- `generateMemberPayload` from `qr-format.ts`: build the object
`name / time / type / membershipId` (in that member order) with `name`
and `membershipId` trimmed, `time` the `new Date().toISOString()` value
`nowIso` observed at construction, `type` the literal `"member"`, and
return its `JSON.stringify` text. -/
def generateMemberPayload (name membershipId : String) (nowIso : String) :
    String :=
  String.mk (stringifyFlatObj
    [("name".data, (jsTrim name).data),
     ("time".data, nowIso.data),
     ("type".data, "member".data),
     ("membershipId".data, (jsTrim membershipId).data)])

/-- `generateGuestPayload` from `qr-format.ts`: the guest shape
`name / time / type / referrer`, with `name` and `referrer` trimmed,
`time` the construction-time clock value, `type` the literal
`"guest"`. -/
def generateGuestPayload (name referrer : String) (nowIso : String) :
    String :=
  String.mk (stringifyFlatObj
    [("name".data, (jsTrim name).data),
     ("time".data, nowIso.data),
     ("type".data, "guest".data),
     ("referrer".data, (jsTrim referrer).data)])

/-! ## Helper lemmas -/

theorem charEq_of_toNat_eq {c d : Char} (h : c.toNat = d.toNat) : c = d :=
  Char.ext (UInt32.ext h)

theorem charOfNat_toNat {c : Char} (h : c.toNat < 55296) :
    Char.ofNat c.toNat = c := by
  apply charEq_of_toNat_eq
  have hv : c.toNat.isValidChar := Or.inl h
  rw [Char.ofNat, dif_pos hv]
  simp [Char.ofNatAux, Char.toNat, UInt32.toNat]

theorem flushLoop_spec (fetch : String → FetchOutcome)
    (items acc : List PendingScan) (n : Nat) (att : List String) :
    flushLoop fetch items acc n att =
      (acc ++ items.filter (fun i => !attemptSucceeds fetch i.qrPayload),
       n + (items.filter (fun i => attemptSucceeds fetch i.qrPayload)).length,
       att ++ items.map (fun i => i.qrPayload)) := by
  induction items generalizing acc n att with
  | nil => simp [flushLoop]
  | cons item rest ih =>
    by_cases h : attemptSucceeds fetch item.qrPayload
    · simp [flushLoop, h, ih, List.filter_cons, Nat.add_assoc, Nat.add_comm 1]
    · simp [flushLoop, h, ih, List.filter_cons]

theorem flushQueue_queueAfter (stored : List PendingScan)
    (fetch : String → FetchOutcome) :
    (flushQueue true stored fetch).queueAfter =
      stored.filter (fun i => !attemptSucceeds fetch i.qrPayload) := by
  cases stored with
  | nil => simp [flushQueue]
  | cons a t => simp [flushQueue, flushLoop_spec]

/-! ## Claim theorems -/

/-- C1.  A drain pass over a non-empty persisted queue attempts delivery
of every entry in enqueue order (no short-circuit at a failure), performs
exactly one storage write, whose content is the subsequence of entries
whose delivery failed in their original relative order, and returns the
number of entries that succeeded. -/
theorem flushQueue_drainPass (stored : List PendingScan)
    (fetch : String → FetchOutcome) (h : stored ≠ []) :
    flushQueue true stored fetch =
      { flushed :=
          (stored.filter (fun i => attemptSucceeds fetch i.qrPayload)).length,
        attempts := stored.map (fun i => i.qrPayload),
        writes := [stored.filter (fun i => !attemptSucceeds fetch i.qrPayload)],
        queueAfter :=
          stored.filter (fun i => !attemptSucceeds fetch i.qrPayload) } := by
  match stored, h with
  | a :: t, _ => simp [flushQueue, flushLoop_spec]

/-- C1 witness: queue `[A, B, C]`, delivery failing exactly on `B`:
all three payloads are attempted in order, the single rewrite retains
exactly `B`, and the reported count is 2. -/
theorem flushQueue_drainPass_witness :
    ([{ id := "id-A", qrPayload := "pA", createdAt := "t0" },
      { id := "id-B", qrPayload := "pB", createdAt := "t1" },
      { id := "id-C", qrPayload := "pC", createdAt := "t2" }] :
        List PendingScan) ≠ [] ∧
    flushQueue true
      [{ id := "id-A", qrPayload := "pA", createdAt := "t0" },
       { id := "id-B", qrPayload := "pB", createdAt := "t1" },
       { id := "id-C", qrPayload := "pC", createdAt := "t2" }]
      (fun p => if p = "pB" then Except.ok (false, "duplicate")
                else Except.ok (true, "ok")) =
      { flushed :=
          (([{ id := "id-A", qrPayload := "pA", createdAt := "t0" },
             { id := "id-B", qrPayload := "pB", createdAt := "t1" },
             { id := "id-C", qrPayload := "pC", createdAt := "t2" }] :
              List PendingScan).filter
            (fun i => attemptSucceeds
              (fun p => if p = "pB" then Except.ok (false, "duplicate")
                        else Except.ok (true, "ok")) i.qrPayload)).length,
        attempts :=
          ([{ id := "id-A", qrPayload := "pA", createdAt := "t0" },
            { id := "id-B", qrPayload := "pB", createdAt := "t1" },
            { id := "id-C", qrPayload := "pC", createdAt := "t2" }] :
             List PendingScan).map (fun i => i.qrPayload),
        writes :=
          [([{ id := "id-A", qrPayload := "pA", createdAt := "t0" },
             { id := "id-B", qrPayload := "pB", createdAt := "t1" },
             { id := "id-C", qrPayload := "pC", createdAt := "t2" }] :
              List PendingScan).filter
            (fun i => !attemptSucceeds
              (fun p => if p = "pB" then Except.ok (false, "duplicate")
                        else Except.ok (true, "ok")) i.qrPayload)],
        queueAfter :=
          ([{ id := "id-A", qrPayload := "pA", createdAt := "t0" },
            { id := "id-B", qrPayload := "pB", createdAt := "t1" },
            { id := "id-C", qrPayload := "pC", createdAt := "t2" }] :
             List PendingScan).filter
            (fun i => !attemptSucceeds
              (fun p => if p = "pB" then Except.ok (false, "duplicate")
                        else Except.ok (true, "ok")) i.qrPayload) } :=
  ⟨by decide,
   flushQueue_drainPass
     [{ id := "id-A", qrPayload := "pA", createdAt := "t0" },
      { id := "id-B", qrPayload := "pB", createdAt := "t1" },
      { id := "id-C", qrPayload := "pC", createdAt := "t2" }]
     (fun p => if p = "pB" then Except.ok (false, "duplicate")
               else Except.ok (true, "ok"))
     (by decide)⟩

/-- C10.  When the runtime is offline or the queue loaded at the start of
the pass is empty, `flushQueue` reports a count of 0, attempts no
delivery and performs no storage write: the persisted queue is left
exactly unchanged. -/
theorem flushQueue_noopWhenOfflineOrEmpty (online : Bool)
    (stored : List PendingScan) (fetch : String → FetchOutcome)
    (h : online = false ∨ stored = []) :
    flushQueue online stored fetch =
      { flushed := 0, attempts := [], writes := [], queueAfter := stored } := by
  rcases h with h | h
  · simp [flushQueue, h]
  · cases online <;> simp [flushQueue, h]

/-- C10 witness: offline with a non-empty queue, the call is a no-op on
storage and reports 0. -/
theorem flushQueue_noopWhenOfflineOrEmpty_witness :
    ((false = false) ∨
      ([{ id := "id-A", qrPayload := "pA", createdAt := "t0" }] :
        List PendingScan) = []) ∧
    flushQueue false
      [{ id := "id-A", qrPayload := "pA", createdAt := "t0" }]
      (fun _ => Except.ok (true, "ok")) =
      { flushed := 0, attempts := [], writes := [],
        queueAfter := [{ id := "id-A", qrPayload := "pA", createdAt := "t0" }] } :=
  ⟨Or.inl rfl,
   flushQueue_noopWhenOfflineOrEmpty false
     [{ id := "id-A", qrPayload := "pA", createdAt := "t0" }]
     (fun _ => Except.ok (true, "ok")) (Or.inl rfl)⟩

/-- C7.  An enqueue writes back exactly the freshly re-read persisted
list with one new entry appended at the end: the result is one entry
longer, every pre-existing position is unchanged (no entry dropped,
mutated or reordered), and the final position holds the new entry. -/
theorem enqueue_appendOnly (stored : List PendingScan)
    (idv nowIso payload : String) (i : Nat) (h : i < stored.length) :
    (enqueue stored idv nowIso payload).length = stored.length + 1 ∧
    (enqueue stored idv nowIso payload)[i]? = stored[i]? ∧
    (enqueue stored idv nowIso payload)[stored.length]? =
      some (createPendingScan idv nowIso payload) := by
  refine ⟨by simp [enqueue], ?_, ?_⟩
  · simp [enqueue, List.getElem?_append, h]
  · simp [enqueue]

/-- C7 witness: appending to a two-entry queue leaves position 0
unchanged and puts the fresh entry at position 2. -/
theorem enqueue_appendOnly_witness :
    0 < ([{ id := "id-0", qrPayload := "p0", createdAt := "t0" },
          { id := "id-1", qrPayload := "p1", createdAt := "t1" }] :
           List PendingScan).length ∧
    ((enqueue
        [{ id := "id-0", qrPayload := "p0", createdAt := "t0" },
         { id := "id-1", qrPayload := "p1", createdAt := "t1" }]
        "id-2" "t2" "p2").length =
      ([{ id := "id-0", qrPayload := "p0", createdAt := "t0" },
        { id := "id-1", qrPayload := "p1", createdAt := "t1" }] :
         List PendingScan).length + 1 ∧
     (enqueue
        [{ id := "id-0", qrPayload := "p0", createdAt := "t0" },
         { id := "id-1", qrPayload := "p1", createdAt := "t1" }]
        "id-2" "t2" "p2")[0]? =
      ([{ id := "id-0", qrPayload := "p0", createdAt := "t0" },
        { id := "id-1", qrPayload := "p1", createdAt := "t1" }] :
         List PendingScan)[0]? ∧
     (enqueue
        [{ id := "id-0", qrPayload := "p0", createdAt := "t0" },
         { id := "id-1", qrPayload := "p1", createdAt := "t1" }]
        "id-2" "t2" "p2")[([{ id := "id-0", qrPayload := "p0", createdAt := "t0" },
          { id := "id-1", qrPayload := "p1", createdAt := "t1" }] :
           List PendingScan).length]? =
      some (createPendingScan "id-2" "t2" "p2")) :=
  ⟨by decide,
   enqueue_appendOnly
     [{ id := "id-0", qrPayload := "p0", createdAt := "t0" },
      { id := "id-1", qrPayload := "p1", createdAt := "t1" }]
     "id-2" "t2" "p2" 0 (by decide)⟩

/-- C4.  Whenever the stored queue value is absent, fails to parse, or
parses to a non-array JSON value, `loadQueue` returns the empty list —
for any window state — and, being a total function, never throws. -/
theorem loadQueue_corruptYieldsEmpty (window : Bool) (stored : Option String)
    (parse : String → Option Json)
    (h : stored = none ∨
      ∃ s, stored = some s ∧
        (parse s = none ∨
          ∃ j, parse s = some j ∧ ∀ xs, j ≠ Json.jarr xs)) :
    loadQueue window stored parse = [] := by
  rcases h with h | ⟨s, hs, hp⟩
  · cases window <;> simp [loadQueue, h]
  · subst hs
    cases window with
    | false => simp [loadQueue]
    | true =>
      rcases hp with hp | ⟨j, hj, hna⟩
      · by_cases he : s = "" <;> simp [loadQueue, he, hp]
      · cases j
        case jarr xs => exact absurd rfl (hna xs)
        all_goals by_cases he : s = "" <;> simp [loadQueue, he, hj]

/-- C4 witness: a stored value that parses to a JSON string (non-array)
loads as the empty queue. -/
theorem loadQueue_corruptYieldsEmpty_witness :
    ((some "corrupt" : Option String) = none ∨
      ∃ s, (some "corrupt" : Option String) = some s ∧
        ((fun _ => some (Json.jstr "nonsense") : String → Option Json) s = none ∨
          ∃ j, (fun _ => some (Json.jstr "nonsense") : String → Option Json) s
                 = some j ∧ ∀ xs, j ≠ Json.jarr xs)) ∧
    loadQueue true (some "corrupt")
      (fun _ => some (Json.jstr "nonsense")) = [] :=
  ⟨Or.inr ⟨"corrupt", rfl, Or.inr ⟨Json.jstr "nonsense", rfl, by intro xs; simp⟩⟩,
   loadQueue_corruptYieldsEmpty true (some "corrupt")
     (fun _ => some (Json.jstr "nonsense"))
     (Or.inr ⟨"corrupt", rfl, Or.inr ⟨Json.jstr "nonsense", rfl, by intro xs; simp⟩⟩)⟩

/-- C2.  When the immediate delivery attempt of `submitScan` fails for
any reason — the runtime reports offline, the transport throws, or the
service answers a non-success response — the payload is appended to the
offline queue as a new entry with the freshly generated id and current
timestamp, in one storage write; the result is the normal `Queued`
outcome of the `catch` arm, so no failure escapes to the caller. -/
theorem submitScan_queuesOnFailure (online : Bool)
    (fetch : String → FetchOutcome) (payload : String)
    (stored : List PendingScan) (pendingCount : Nat) (idv nowIso : String)
    (h : online = false ∨
      (∃ e, fetch payload = Except.error e) ∨
      ∃ body, fetch payload = Except.ok (false, body)) :
    submitScan online fetch payload stored pendingCount idv nowIso =
      { delivered := false, flushedCount := 0,
        queueWrites := [stored ++ [createPendingScan idv nowIso payload]],
        queueAfter := stored ++ [createPendingScan idv nowIso payload] } := by
  rcases h with h | ⟨e, he⟩ | ⟨body, hb⟩
  · simp [submitScan, h, enqueue]
  · cases online <;>
      simp [submitScan, recordAttendance, he, enqueue]
  · cases online <;>
      by_cases hbe : body = "" <;>
        simp [submitScan, recordAttendance, handleResponse, hb, hbe, enqueue]

/-- C2 witness: online, but the service rejects the scan (non-success
response): the payload is queued as a fresh entry and the call returns
normally. -/
theorem submitScan_queuesOnFailure_witness :
    ((true : Bool) = false ∨
      (∃ e, (fun _ => Except.ok (false, "duplicate") :
        String → FetchOutcome) "P" = Except.error e) ∨
      ∃ body, (fun _ => Except.ok (false, "duplicate") :
        String → FetchOutcome) "P" = Except.ok (false, body)) ∧
    submitScan true (fun _ => Except.ok (false, "duplicate")) "P"
      [{ id := "id-0", qrPayload := "p0", createdAt := "t0" }] 1 "id-1" "t1" =
      { delivered := false, flushedCount := 0,
        queueWrites :=
          [[{ id := "id-0", qrPayload := "p0", createdAt := "t0" }] ++
            [createPendingScan "id-1" "t1" "P"]],
        queueAfter :=
          [{ id := "id-0", qrPayload := "p0", createdAt := "t0" }] ++
            [createPendingScan "id-1" "t1" "P"] } :=
  ⟨Or.inr (Or.inr ⟨"duplicate", rfl⟩),
   submitScan_queuesOnFailure true (fun _ => Except.ok (false, "duplicate"))
     "P" [{ id := "id-0", qrPayload := "p0", createdAt := "t0" }] 1 "id-1" "t1"
     (Or.inr (Or.inr ⟨"duplicate", rfl⟩))⟩

/-- C3 (code bug, evaluated at the failing input).  `flushQueue` carries
no in-flight guard, so a second invocation that starts while the first
is suspended at its delivery `await` loads the same persisted snapshot.
With the single queued entry `id-A` and delivery succeeding, the
interleaving "A loads; B loads; A attempts; B attempts; A writes;
B writes" attempts the same entry twice — the attempt log holds `id-A`
twice and each pass reports one flushed entry for a one-entry queue —
contradicting "the second trigger no-ops or is deferred and no queued
entry is ever attempted twice concurrently". -/
theorem flushQueue_concurrentDrain_duplicates :
    (runSched (fun _ => Except.ok (true, "ok"))
      [false, true, false, true, false, true]
      { persisted := [{ id := "id-A", qrPayload := "pA", createdAt := "t0" }],
        attemptLog := [], taskA := TaskState.idle,
        taskB := TaskState.idle }).attemptLog = ["id-A", "id-A"] ∧
    (runSched (fun _ => Except.ok (true, "ok"))
      [false, true, false, true, false, true]
      { persisted := [{ id := "id-A", qrPayload := "pA", createdAt := "t0" }],
        attemptLog := [], taskA := TaskState.idle,
        taskB := TaskState.idle }).taskA = TaskState.finished 1 ∧
    (runSched (fun _ => Except.ok (true, "ok"))
      [false, true, false, true, false, true]
      { persisted := [{ id := "id-A", qrPayload := "pA", createdAt := "t0" }],
        attemptLog := [], taskA := TaskState.idle,
        taskB := TaskState.idle }).taskB = TaskState.finished 1 := by
  decide

/-- C6 counterexample: manual entry of `" x "` forwards `"x"`, not the
entered text — the manual-entry path is not verbatim (it trims). -/
theorem handleManualSubmit_notVerbatim_cex :
    handleManualSubmit " x " = some "x" ∧
    ¬ handleManualSubmit " x " = some " x " := by
  decide

/-- C6 as amended: for every manually entered text whose trim is
non-empty, the manual-entry path forwards exactly the trimmed text as
the submission payload — no validation of the text against the payload
schema occurs (arbitrary non-blank text is forwarded unchanged apart
from the trim). -/
theorem handleManualSubmit_forwardsTrimmed (s : String)
    (h : ¬ jsTrim s = "") :
    handleManualSubmit s = some (jsTrim s) := by
  simp [handleManualSubmit, h]

/-- C6 witness: a text that is nowhere near the JSON payload schema is
still forwarded (trimmed) with no validation. -/
theorem handleManualSubmit_forwardsTrimmed_witness :
    ¬ jsTrim "definitely not a payload !!" = "" ∧
    handleManualSubmit "definitely not a payload !!" =
      some (jsTrim "definitely not a payload !!") :=
  ⟨by decide, handleManualSubmit_forwardsTrimmed
    "definitely not a payload !!" (by decide)⟩

theorem applyOp_inv (g clock : Nat → String) (hg : Function.Injective g)
    (st : Nat × List PendingScan) (op : QueueOp)
    (hprov : ∀ e ∈ st.2, ∃ k, k < st.1 ∧ e.id = g k)
    (hnod : (st.2.map (fun e => e.id)).Nodup) :
    (∀ e ∈ (applyOp g clock st op).2,
      ∃ k, k < (applyOp g clock st op).1 ∧ e.id = g k) ∧
    ((applyOp g clock st op).2.map (fun e => e.id)).Nodup := by
  rcases st with ⟨k, q⟩
  cases op with
  | enq p =>
    constructor
    · intro e he
      simp only [applyOp, enqueue, createPendingScan] at he
      rcases List.mem_append.mp he with he | he
      · obtain ⟨k2, hk2, hid⟩ := hprov e he
        exact ⟨k2, Nat.lt_succ_of_lt hk2, hid⟩
      · obtain rfl := List.mem_singleton.mp he
        exact ⟨k, Nat.lt_succ_self k, rfl⟩
    · simp only [applyOp, enqueue, createPendingScan, List.map_append,
        List.map_cons, List.map_nil]
      rw [List.nodup_append]
      refine ⟨hnod, List.nodup_singleton _, ?_⟩
      intro x hx hx1
      obtain ⟨e, he, hid⟩ := List.mem_map.mp hx
      obtain rfl := List.mem_singleton.mp hx1
      obtain ⟨k2, hk2, hid2⟩ := hprov e he
      have : k2 = k := hg (hid ▸ hid2).symm
      omega
  | drain fetch =>
    constructor
    · intro e he
      simp only [applyOp] at he ⊢
      rw [flushQueue_queueAfter] at he
      exact hprov e (List.mem_of_mem_filter he)
    · simp only [applyOp, flushQueue_queueAfter]
      exact hnod.sublist (List.Sublist.map _ (List.filter_sublist q))

theorem foldl_applyOp_inv (g clock : Nat → String)
    (hg : Function.Injective g) (ops : List QueueOp)
    (st : Nat × List PendingScan)
    (hprov : ∀ e ∈ st.2, ∃ k, k < st.1 ∧ e.id = g k)
    (hnod : (st.2.map (fun e => e.id)).Nodup) :
    (∀ e ∈ (ops.foldl (applyOp g clock) st).2,
      ∃ k, k < (ops.foldl (applyOp g clock) st).1 ∧ e.id = g k) ∧
    ((ops.foldl (applyOp g clock) st).2.map (fun e => e.id)).Nodup := by
  induction ops generalizing st with
  | nil => exact ⟨hprov, hnod⟩
  | cons op rest ih =>
    simp only [List.foldl_cons]
    obtain ⟨h1, h2⟩ := applyOp_inv g clock hg st op hprov hnod
    exact ih (applyOp g clock st op) h1 h2

/-- C9.  Under an id source that never repeats (the contract of
`crypto.randomUUID`, modelled as an injective generator indexed by the
call counter), after any history of enqueues and drain passes the
entries of the persisted queue carry pairwise-distinct ids. -/
theorem queueIds_nodup (g clock : Nat → String) (ops : List QueueOp)
    (hg : Function.Injective g) :
    ((runOps g clock ops).2.map (fun e => e.id)).Nodup := by
  have h := foldl_applyOp_inv g clock hg ops (0, [])
    (by intro e he; simp at he) (by simp)
  simpa [runOps] using h.2

/-- C9 witness: three enqueues with a drain in between, under a concrete
injective id source: all ids in the resulting queue are distinct. -/
theorem queueIds_nodup_witness :
    Function.Injective
      (fun n => String.mk (List.replicate n (Char.ofNat 97))) ∧
    ((runOps (fun n => String.mk (List.replicate n (Char.ofNat 97)))
        (fun _ => "t")
        [QueueOp.enq "pA", QueueOp.enq "pB",
         QueueOp.drain (fun p => if p = "pA" then Except.ok (true, "ok")
                                 else Except.ok (false, "down")),
         QueueOp.enq "pC"]).2.map (fun e => e.id)).Nodup :=
  ⟨fun a b h => by simpa using congrArg (fun s => s.data.length) h,
   queueIds_nodup (fun n => String.mk (List.replicate n (Char.ofNat 97)))
     (fun _ => "t")
     [QueueOp.enq "pA", QueueOp.enq "pB",
      QueueOp.drain (fun p => if p = "pA" then Except.ok (true, "ok")
                              else Except.ok (false, "down")),
      QueueOp.enq "pC"]
     (fun a b h => by simpa using congrArg (fun s => s.data.length) h)⟩

theorem hexVal_hexDigitChar : ∀ n < 16, hexVal (hexDigitChar n) = some n := by
  decide

theorem parseStringBody_escChar (c : Char) (xs : List Char) :
    parseStringBody (escChar c ++ xs) =
      (parseStringBody xs).map (fun p => (c :: p.1, p.2)) := by
  unfold escChar
  split_ifs with h1 h2 h3 h4 h5 h6 h7 h8
  · subst h1
    rw [List.cons_append, List.cons_append, List.nil_append,
      parseStringBody.eq_def]
    cases hx : parseStringBody xs <;> simp [simpleEscape, hx]
  · subst h2
    rw [List.cons_append, List.cons_append, List.nil_append,
      parseStringBody.eq_def]
    cases hx : parseStringBody xs <;> simp [simpleEscape, hx]
  · obtain rfl : c = Char.ofNat 8 := by rw [← h3, charOfNat_toNat]; omega
    rw [List.cons_append, List.cons_append, List.nil_append,
      parseStringBody.eq_def]
    cases hx : parseStringBody xs <;> simp [simpleEscape, hx]
  · obtain rfl : c = Char.ofNat 9 := by rw [← h4, charOfNat_toNat]; omega
    rw [List.cons_append, List.cons_append, List.nil_append,
      parseStringBody.eq_def]
    cases hx : parseStringBody xs <;> simp [simpleEscape, hx]
  · obtain rfl : c = Char.ofNat 10 := by rw [← h5, charOfNat_toNat]; omega
    rw [List.cons_append, List.cons_append, List.nil_append,
      parseStringBody.eq_def]
    cases hx : parseStringBody xs <;> simp [simpleEscape, hx]
  · obtain rfl : c = Char.ofNat 12 := by rw [← h6, charOfNat_toNat]; omega
    rw [List.cons_append, List.cons_append, List.nil_append,
      parseStringBody.eq_def]
    cases hx : parseStringBody xs <;> simp [simpleEscape, hx]
  · obtain rfl : c = Char.ofNat 13 := by rw [← h7, charOfNat_toNat]; omega
    rw [List.cons_append, List.cons_append, List.nil_append,
      parseStringBody.eq_def]
    cases hx : parseStringBody xs <;> simp [simpleEscape, hx]
  · have h0 : hexVal (Char.ofNat 48) = some 0 := by decide
    have hdiv : hexVal (hexDigitChar (c.toNat / 16)) = some (c.toNat / 16) :=
      hexVal_hexDigitChar _ (by omega)
    have hmod : hexVal (hexDigitChar (c.toNat % 16)) = some (c.toNat % 16) :=
      hexVal_hexDigitChar _ (by omega)
    have hcc : Char.ofNat (c.toNat / 16 * 16 + c.toNat % 16) = c := by
      have hv : c.toNat / 16 * 16 + c.toNat % 16 = c.toNat := by omega
      rw [hv]
      exact charOfNat_toNat (by omega)
    simp only [List.cons_append, List.nil_append]
    rw [parseStringBody.eq_def]
    cases hx : parseStringBody xs <;> simp [hx, h0, hdiv, hmod, hcc]
  · simp only [List.cons_append, List.nil_append]
    rw [parseStringBody.eq_def]
    cases hx : parseStringBody xs <;> simp [hx, h1, h2, h8]

theorem parseStringBody_quoted (s xs : List Char) :
    parseStringBody ((s.map escChar).flatten ++ Char.ofNat 34 :: xs) =
      some (s, xs) := by
  induction s with
  | nil =>
    simp only [List.map_nil, List.flatten_nil, List.nil_append]
    rw [parseStringBody.eq_def]
    simp
  | cons c t ih =>
    simp only [List.map_cons, List.flatten_cons, List.append_assoc]
    rw [parseStringBody_escChar, ih]
    rfl

theorem parseJStr_quoteStr (s xs : List Char) :
    parseJStr (quoteStr s ++ xs) = some (s, xs) := by
  simp only [quoteStr, List.cons_append, List.append_assoc, parseJStr]
  simp [parseStringBody_quoted]

theorem fieldsGlue_length_ge (kv : List Char × List Char)
    (fs : List (List Char × List Char)) :
    fs.length + 1 ≤ (fieldsGlue (kv :: fs)).length := by
  induction fs generalizing kv with
  | nil => simp [fieldsGlue, stringifyField, quoteStr]
  | cons kv2 fs2 ih =>
    have h2 := ih kv2
    simp only [fieldsGlue, stringifyField, quoteStr] at h2 ⊢
    simp only [List.length_append, List.length_cons] at h2 ⊢
    omega

theorem parseFieldsFuel_glue (fs : List (List Char × List Char))
    (kv : List Char × List Char) (xs : List Char) (fuel : Nat)
    (h : fs.length < fuel) :
    parseFieldsFuel fuel (fieldsGlue (kv :: fs) ++ cbraceChar :: xs) =
      some (kv :: fs, xs) := by
  induction fs generalizing kv fuel with
  | nil =>
    obtain ⟨f, rfl⟩ : ∃ f, fuel = f + 1 := ⟨fuel - 1, by omega⟩
    simp only [fieldsGlue, stringifyField, List.append_assoc,
      List.cons_append]
    rw [parseFieldsFuel]
    rw [parseJStr_quoteStr]
    simp only [if_true]
    rw [parseJStr_quoteStr]
    simp [cbraceChar]
  | cons kv2 fs2 ih =>
    obtain ⟨f, rfl⟩ : ∃ f, fuel = f + 1 := ⟨fuel - 1, by omega⟩
    have hrec := ih kv2 f (by simpa using Nat.lt_of_succ_lt_succ h)
    simp only [fieldsGlue, stringifyField, List.append_assoc,
      List.cons_append]
    rw [parseFieldsFuel]
    rw [parseJStr_quoteStr]
    simp only [if_true]
    rw [parseJStr_quoteStr]
    simp only [List.append_assoc, List.cons_append] at hrec
    simp [hrec]

theorem parseFlatObj_stringifyFlatObj (fs : List (List Char × List Char))
    (h : fs ≠ []) :
    parseFlatObj (stringifyFlatObj fs) = some fs := by
  match fs, h with
  | kv :: fs', _ =>
    obtain ⟨z, hz⟩ : ∃ z, fieldsGlue (kv :: fs') = Char.ofNat 34 :: z := by
      cases fs' with
      | nil =>
        exact ⟨(kv.1.map escChar).flatten ++ [Char.ofNat 34] ++
          Char.ofNat 58 :: quoteStr kv.2,
          by simp [fieldsGlue, stringifyField, quoteStr]⟩
      | cons kv2 fs2 =>
        exact ⟨(kv.1.map escChar).flatten ++ [Char.ofNat 34] ++
          Char.ofNat 58 :: quoteStr kv.2 ++
          Char.ofNat 44 :: fieldsGlue (kv2 :: fs2),
          by simp [fieldsGlue, stringifyField, quoteStr]⟩
    have hback : Char.ofNat 34 :: (z ++ [cbraceChar]) =
        fieldsGlue (kv :: fs') ++ cbraceChar :: [] := by
      rw [hz]; simp
    have hrepr : stringifyFlatObj (kv :: fs') =
        obraceChar :: Char.ofNat 34 :: (z ++ [cbraceChar]) := by
      rw [stringifyFlatObj, hz]; simp
    have hlen : fs'.length <
        (Char.ofNat 34 :: (z ++ [cbraceChar])).length := by
      rw [hback]
      have := fieldsGlue_length_ge kv fs'
      simp only [List.length_append, List.length_cons]
      omega
    rw [hrepr, parseFlatObj]
    rw [if_pos rfl]
    have h34 : ¬ (Char.ofNat 34 = cbraceChar) := by decide
    rw [if_neg h34]
    rw [hback]
    rw [parseFieldsFuel_glue fs' kv [] _ (by rw [← hback]; exact hlen)]
    simp

theorem generateMemberPayload_parse (name membershipId nowIso : String) :
    parsePayload (generateMemberPayload name membershipId nowIso) =
      some [("name".data, (jsTrim name).data), ("time".data, nowIso.data),
            ("type".data, "member".data),
            ("membershipId".data, (jsTrim membershipId).data)] := by
  unfold parsePayload generateMemberPayload
  exact parseFlatObj_stringifyFlatObj _ (by simp)

theorem generateGuestPayload_parse (name referrer nowIso : String) :
    parsePayload (generateGuestPayload name referrer nowIso) =
      some [("name".data, (jsTrim name).data), ("time".data, nowIso.data),
            ("type".data, "guest".data),
            ("referrer".data, (jsTrim referrer).data)] := by
  unfold parsePayload generateGuestPayload
  exact parseFlatObj_stringifyFlatObj _ (by simp)

/-- C5 counterexample: `generateMemberPayload "" "ANCHOR-001"` does not
fail with a validation error — it returns a complete, well-formed member
payload whose `name` field is the empty string, so a queued entry /
delivery attempt built from it is not prevented by the codec. -/
theorem generateMemberPayload_noValidation_cex :
    jsTrim "" = "" ∧
    parsePayload
        (generateMemberPayload "" "ANCHOR-001" "2025-11-16T10:30:00.000Z") =
      some [("name".data, []),
            ("time".data, "2025-11-16T10:30:00.000Z".data),
            ("type".data, "member".data),
            ("membershipId".data, "ANCHOR-001".data)] := by
  exact ⟨rfl, by decide⟩

/-- C5 as amended: `generateMemberPayload` (and `generateGuestPayload`)
trims both arguments but performs no validation at all — even when the
name is empty after trimming it returns the serialized payload, with the
empty trimmed name embedded, and signals no error. -/
theorem generateMemberPayload_trimsWithoutValidation
    (name membershipId nowIso : String) (h : jsTrim name = "") :
    parsePayload (generateMemberPayload name membershipId nowIso) =
      some [("name".data, []), ("time".data, nowIso.data),
            ("type".data, "member".data),
            ("membershipId".data, (jsTrim membershipId).data)] ∧
    parsePayload (generateGuestPayload name membershipId nowIso) =
      some [("name".data, []), ("time".data, nowIso.data),
            ("type".data, "guest".data),
            ("referrer".data, (jsTrim membershipId).data)] := by
  constructor
  · rw [generateMemberPayload_parse, h]
  · rw [generateGuestPayload_parse, h]

/-- C5 witness: an all-whitespace name trims to empty and still yields a
full payload with an empty `name` member. -/
theorem generateMemberPayload_trimsWithoutValidation_witness :
    jsTrim "   " = "" ∧
    (parsePayload (generateMemberPayload "   " "ANCHOR-001"
        "2025-11-16T10:30:00.000Z") =
      some [("name".data, []),
            ("time".data, "2025-11-16T10:30:00.000Z".data),
            ("type".data, "member".data),
            ("membershipId".data, (jsTrim "ANCHOR-001").data)] ∧
     parsePayload (generateGuestPayload "   " "ANCHOR-001"
        "2025-11-16T10:30:00.000Z") =
      some [("name".data, []),
            ("time".data, "2025-11-16T10:30:00.000Z".data),
            ("type".data, "guest".data),
            ("referrer".data, (jsTrim "ANCHOR-001").data)]) :=
  ⟨by decide,
   generateMemberPayload_trimsWithoutValidation "   " "ANCHOR-001"
     "2025-11-16T10:30:00.000Z" (by decide)⟩

/-- C8.  For every input, the member payload text parses as a JSON
object with exactly the members `name`, `time`, `type`, `membershipId`
in that order, where `type` is `"member"`, `name`/`membershipId` are the
trimmed inputs and `time` is the ISO instant observed at construction
(the caller passes no time); serializing that object again reproduces
the payload text exactly.  The guest shape satisfies the analogous
property with `referrer` and `"guest"`. -/
theorem payload_roundTrip (name membershipId referrer nowIso : String)
    (h : isIsoInstant nowIso = true) :
    parsePayload (generateMemberPayload name membershipId nowIso) =
      some [("name".data, (jsTrim name).data), ("time".data, nowIso.data),
            ("type".data, "member".data),
            ("membershipId".data, (jsTrim membershipId).data)] ∧
    String.mk (stringifyFlatObj
      [("name".data, (jsTrim name).data), ("time".data, nowIso.data),
       ("type".data, "member".data),
       ("membershipId".data, (jsTrim membershipId).data)]) =
      generateMemberPayload name membershipId nowIso ∧
    parsePayload (generateGuestPayload name referrer nowIso) =
      some [("name".data, (jsTrim name).data), ("time".data, nowIso.data),
            ("type".data, "guest".data),
            ("referrer".data, (jsTrim referrer).data)] ∧
    String.mk (stringifyFlatObj
      [("name".data, (jsTrim name).data), ("time".data, nowIso.data),
       ("type".data, "guest".data),
       ("referrer".data, (jsTrim referrer).data)]) =
      generateGuestPayload name referrer nowIso ∧
    isIsoInstant (String.mk nowIso.data) = true :=
  ⟨generateMemberPayload_parse name membershipId nowIso, rfl,
   generateGuestPayload_parse name referrer nowIso, rfl, h⟩

/-- C8 witness: the repository's own test payload inputs round-trip. -/
theorem payload_roundTrip_witness :
    isIsoInstant "2025-11-16T10:30:00.000Z" = true ∧
    (parsePayload (generateMemberPayload "larrylo" "ANCHOR-001"
        "2025-11-16T10:30:00.000Z") =
      some [("name".data, (jsTrim "larrylo").data),
            ("time".data, ("2025-11-16T10:30:00.000Z" : String).data),
            ("type".data, "member".data),
            ("membershipId".data, (jsTrim "ANCHOR-001").data)] ∧
     String.mk (stringifyFlatObj
       [("name".data, (jsTrim "larrylo").data),
        ("time".data, ("2025-11-16T10:30:00.000Z" : String).data),
        ("type".data, "member".data),
        ("membershipId".data, (jsTrim "ANCHOR-001").data)]) =
      generateMemberPayload "larrylo" "ANCHOR-001"
        "2025-11-16T10:30:00.000Z" ∧
     parsePayload (generateGuestPayload "larrylo" "larrylo"
        "2025-11-16T10:30:00.000Z") =
      some [("name".data, (jsTrim "larrylo").data),
            ("time".data, ("2025-11-16T10:30:00.000Z" : String).data),
            ("type".data, "guest".data),
            ("referrer".data, (jsTrim "larrylo").data)] ∧
     String.mk (stringifyFlatObj
       [("name".data, (jsTrim "larrylo").data),
        ("time".data, ("2025-11-16T10:30:00.000Z" : String).data),
        ("type".data, "guest".data),
        ("referrer".data, (jsTrim "larrylo").data)]) =
      generateGuestPayload "larrylo" "larrylo"
        "2025-11-16T10:30:00.000Z" ∧
     isIsoInstant (String.mk ("2025-11-16T10:30:00.000Z" : String).data) =
       true) :=
  ⟨by decide,
   payload_roundTrip "larrylo" "ANCHOR-001" "larrylo"
     "2025-11-16T10:30:00.000Z" (by decide)⟩

end BniAnchor
